import Mathlib

/-!
# QuickTransType — hotkey model, capture handlers and configuration store

Shallow embedding of the configuration/hotkey core of the QuickTransType
frontend:

* the data model (`Hotkey`, `HotkeyConfig`, `LanguageConfig`, `AppConfig`,
  `AppStateData`) from `src/lib/stores/appState.ts`;
* the store operations `loadConfig`, `saveConfig`, `updateConfig`
  (the asynchronous backend round trip is made explicit as an
  `Except String _` argument describing the backend's response);
* the interactive hotkey capture handlers `handleSelectedKeydown`,
  `handleFullKeydown`, `updateConsecutiveCount` and `checkConflict` from
  `src/lib/settings/HotkeySettings.svelte` (component-local state is a
  `HotkeySettingsState`; the `onUpdate` commit callback and the conflict
  query are reported in the result record);
* `removeLanguage` from the language settings component.

JavaScript numbers appearing in the configuration are embedded as `ℚ`
for the LLM sampling parameters and `Int` for counts and limits; strings
stay `String`, optional record fields stay `Option`.
-/

namespace QuickTransType

/-- A favourite-language entry `{code, name}`. -/
structure Language where
  code : String
  name : String
deriving DecidableEq, Repr

/-- The discriminant of the `Hotkey` record: the TS `type` field is the
closed string union `"Combination" | "Consecutive"`. -/
inductive HotkeyType where
  | Combination
  | Consecutive
deriving DecidableEq, Repr

/-- The `Hotkey` record of `appState.ts`: `modifiers` and `count` are
optional fields. -/
structure Hotkey where
  type : HotkeyType
  modifiers : Option (List String) := none
  key : String
  count : Option Int := none
deriving DecidableEq, Repr

/-- LLM connection settings; sampling parameters are embedded as `ℚ`. -/
structure LLMConfig where
  base_url : String
  api_key : String
  model : String
  temperature : ℚ
  top_p : ℚ
  system_prompt : String
  user_prompt_template : String
  stream_mode : Bool
deriving DecidableEq, Repr

/-- The two hotkey slots of the application configuration. -/
structure HotkeyConfig where
  selected_mode : Hotkey
  full_mode : Hotkey
deriving DecidableEq, Repr

/-- Target language and favourite-language list. -/
structure LanguageConfig where
  current_target : String
  favorite_languages : List Language
deriving DecidableEq, Repr

/-- The aggregate application configuration. -/
structure AppConfig where
  llm : LLMConfig
  hotkey : HotkeyConfig
  language : LanguageConfig
  history_limit : Int
deriving DecidableEq, Repr

/-- The writable store state behind `createAppState`. -/
structure AppStateData where
  config : Option AppConfig
  isLoading : Bool
  error : Option String
  isEnabled : Bool
deriving DecidableEq, Repr

/-- The value returned by `saveConfig`: `{success: true}` or
`{success: false, error}`. -/
structure SaveResult where
  success : Bool
  error : Option String := none
deriving DecidableEq, Repr

/-- A `Partial<AppConfig>` argument of `updateConfig`: each field may be
present or absent. -/
structure ConfigPatch where
  llm : Option LLMConfig := none
  hotkey : Option HotkeyConfig := none
  language : Option LanguageConfig := none
  history_limit : Option Int := none
deriving DecidableEq, Repr

/-- The built-in `defaultConfig` of `appState.ts`, used as the fallback
when loading the persisted configuration fails. -/
def defaultConfig : AppConfig :=
  { llm :=
      { base_url := "https://api.openai.com/v1"
        api_key := ""
        model := "gpt-4o-mini"
        temperature := 3 / 10
        top_p := 1
        system_prompt :=
          "You are a professional translator. Maintain the original formatting of the text."
        user_prompt_template :=
          "将下列文本翻译为{target_language}，保持原有格式：{text}"
        stream_mode := true }
    hotkey :=
      { selected_mode :=
          { type := HotkeyType.Combination
            modifiers := some ["Meta"]
            key := "t" }
        full_mode :=
          { type := HotkeyType.Consecutive
            key := " "
            count := some 3 } }
    language :=
      { current_target := "en-US"
        favorite_languages :=
          [ { code := "en-US", name := "English" },
            { code := "zh-CN", name := "简体中文" },
            { code := "ja-JP", name := "日本語" },
            { code := "ko-KR", name := "한국어" },
            { code := "fr-FR", name := "Français" },
            { code := "es-ES", name := "Español" } ] }
    history_limit := 500 }

/-- The initial store state of `createAppState`: no configuration before
the first load, not loading, no error, globally enabled. -/
def initialAppState : AppStateData :=
  { config := none, isLoading := true, error := none, isEnabled := true }

/-- `loadConfig`: sets the loading flag and clears the error, then asks
the backend for the configuration; a successful response is installed,
any failure silently installs `defaultConfig`.  `resp` is the backend's
response to the `get_config` call. -/
def loadConfig (s : AppStateData) (resp : Except String AppConfig) : AppStateData :=
  let s1 := { s with isLoading := true, error := none }
  match resp with
  | Except.ok cfg => { s1 with config := some cfg, isLoading := false }
  | Except.error _ => { s1 with config := some defaultConfig, isLoading := false }

/-- `saveConfig`: sets the loading flag and clears the error, then sends
the candidate to the backend; on success the candidate replaces the
in-memory configuration, on failure the error is recorded and returned.
`resp` is the backend's response to the `save_config` call. -/
def saveConfig (s : AppStateData) (cfg : AppConfig) (resp : Except String Unit) :
    AppStateData × SaveResult :=
  let s1 := { s with isLoading := true, error := none }
  match resp with
  | Except.ok _ =>
      ({ s1 with config := some cfg, isLoading := false }, { success := true })
  | Except.error e =>
      ({ s1 with error := some e, isLoading := false },
       { success := false, error := some e })

/-- Merge a partial configuration into a full one: present fields of the
patch override, absent fields keep the current value (the TS object
spread `\x7b...state.config, ...partialConfig\x7d`). -/
def mergeConfig (c : AppConfig) (p : ConfigPatch) : AppConfig :=
  { llm := p.llm.getD c.llm
    hotkey := p.hotkey.getD c.hotkey
    language := p.language.getD c.language
    history_limit := p.history_limit.getD c.history_limit }

/-- `updateConfig`: local (non-persisting) merge of a partial
configuration; when no configuration is loaded the state keeps `none`. -/
def updateConfig (s : AppStateData) (p : ConfigPatch) : AppStateData :=
  { s with config := s.config.map (fun c => mergeConfig c p) }

/-- `setEnabled` of the store. -/
def setEnabled (s : AppStateData) (enabled : Bool) : AppStateData :=
  { s with isEnabled := enabled }

/-- A keyboard event as seen by the keydown handlers: the four modifier
flags and the `key` string. -/
structure KeyboardEvent where
  metaKey : Bool
  ctrlKey : Bool
  altKey : Bool
  shiftKey : Bool
  key : String
deriving DecidableEq, Repr

/-- Component-local state of `HotkeySettings.svelte`: the two recording
flags, the conflict warning banner, the two hotkeys being edited and the
consecutive-count field bound to the number input. -/
structure HotkeySettingsState where
  selectedRecording : Bool
  fullRecording : Bool
  conflictWarning : Option String
  selectedMode : Hotkey
  fullMode : Hotkey
  consecutiveCount : Int
deriving DecidableEq, Repr

/-- Result of one keydown-handler invocation: the new component state,
the arguments of the `onUpdate` commit callback when it was invoked, and
whether the conflict query was issued. -/
structure KeydownResult where
  state : HotkeySettingsState
  committed : Option (Hotkey × Hotkey)
  conflictChecked : Bool
deriving DecidableEq, Repr

/-- The held-modifier list built at the top of both keydown handlers, in
source order Meta, Control, Alt, Shift. -/
def mkModifiers (e : KeyboardEvent) : List String :=
  (if e.metaKey then ["Meta"] else []) ++
  (if e.ctrlKey then ["Control"] else []) ++
  (if e.altKey then ["Alt"] else []) ++
  (if e.shiftKey then ["Shift"] else [])

/-- Lower-cased names of the pure modifier keys, swallowed while
recording. -/
def pureModifierKeys : List String := ["meta", "control", "alt", "shift"]

/-- The `event.key.toLowerCase()` normalisation applied by both keydown
handlers, embedded as a character-wise lowercase map. -/
def toLowerStr (s : String) : String := String.mk (s.data.map Char.toLower)

/-- The warning shown when the selected-text slot is given a hotkey with
no modifier. -/
def missingModifierMsg : String := "选中翻译热键必须包含修饰键（Cmd/Ctrl/Option）"

/-- The initial value of the component's `consecutiveCount` field, seeded
from the configured full-text hotkey's count (3 when absent or the hotkey
is not `Consecutive`). -/
def initConsecutiveCount (fullMode : Hotkey) : Int :=
  if fullMode.type = HotkeyType.Consecutive then fullMode.count.getD 3 else 3

/-- `handleSelectedKeydown`: ignores events while not recording, swallows
pure modifier keys, rejects a modifier-less press by setting the warning
(while staying in recording mode), and otherwise commits a `Combination`
hotkey, clears the warning, stops recording and issues the conflict
query. -/
def handleSelectedKeydown (st : HotkeySettingsState) (e : KeyboardEvent) : KeydownResult :=
  if st.selectedRecording = false then ⟨st, none, false⟩ else
  let modifiers := mkModifiers e
  let key := toLowerStr e.key
  if key ∈ pureModifierKeys then ⟨st, none, false⟩
  else if modifiers.length = 0 then
    ⟨{ st with conflictWarning := some missingModifierMsg }, none, false⟩
  else
    let newSelected : Hotkey := { type := HotkeyType.Combination, modifiers := some modifiers, key := key }
    ⟨{ st with selectedMode := newSelected, conflictWarning := none, selectedRecording := false },
     some (newSelected, st.fullMode), true⟩

/-- `handleFullKeydown`: ignores events while not recording, swallows
pure modifier keys, and commits either a `Combination` (some modifier
held) or a `Consecutive` hotkey seeded with the current
`consecutiveCount` (no modifier held), stopping recording and issuing
the conflict query.  (The source's `key === " " ? " " : key` is the
identity on the key.) -/
def handleFullKeydown (st : HotkeySettingsState) (e : KeyboardEvent) : KeydownResult :=
  if st.fullRecording = false then ⟨st, none, false⟩ else
  let modifiers := mkModifiers e
  let key := toLowerStr e.key
  if key ∈ pureModifierKeys then ⟨st, none, false⟩
  else
    let newFull : Hotkey :=
      if modifiers.length > 0 then
        { type := HotkeyType.Combination, modifiers := some modifiers, key := key }
      else
        { type := HotkeyType.Consecutive, key := key, count := some st.consecutiveCount }
    ⟨{ st with fullMode := newFull, fullRecording := false },
     some (st.selectedMode, newFull), true⟩

/-- `updateConsecutiveCount`: when the full-text hotkey is `Consecutive`,
replaces its count with the current `consecutiveCount` field and commits
via `onUpdate`; otherwise does nothing.  Returns the new state and the
`onUpdate` arguments when invoked. -/
def updateConsecutiveCount (st : HotkeySettingsState) :
    HotkeySettingsState × Option (Hotkey × Hotkey) :=
  if st.fullMode.type = HotkeyType.Consecutive then
    let fm := { st.fullMode with count := some st.consecutiveCount }
    ({ st with fullMode := fm }, some (st.selectedMode, fm))
  else (st, none)

/-- A change of the consecutive-count number input: `bind:value` writes
the typed value into `consecutiveCount`, then the `onchange` handler
runs `updateConsecutiveCount`. -/
def onCountChange (st : HotkeySettingsState) (typed : Int) :
    HotkeySettingsState × Option (Hotkey × Hotkey) :=
  updateConsecutiveCount { st with consecutiveCount := typed }

/-- The conflict banner text built from a non-empty conflict list. -/
def conflictMsg (conflicts : List String) : String :=
  "⚠️ 与系统快捷键冲突: " ++ String.intercalate ", " conflicts

/-- `checkConflict`: queries the backend with the selected-mode hotkey;
a successful response with a non-empty conflict list sets the banner, an
empty list leaves the state alone, and a failure is swallowed without
touching any state.  `resp` is the backend's response to the
`check_hotkey_conflicts` call. -/
def checkConflict (st : HotkeySettingsState) (resp : Except String (List String)) :
    HotkeySettingsState :=
  match resp with
  | Except.ok conflicts =>
      if conflicts.length > 0 then { st with conflictWarning := some (conflictMsg conflicts) }
      else st
  | Except.error _ => st

/-- The two hotkey slots. -/
inductive Slot where
  | selectedText
  | fullText
deriving DecidableEq, Repr

/-- The structural validation rule the keydown handlers implement inline:
the selected-text slot rejects a `Combination` whose modifier set is
empty (the `modifiers.length === 0` guard of `handleSelectedKeydown`)
with the missing-modifier error; every other hotkey shape is accepted,
and the full-text slot (`handleFullKeydown`) accepts everything. -/
def validate (h : Hotkey) (slot : Slot) : Except String Unit :=
  match slot with
  | Slot.fullText => Except.ok ()
  | Slot.selectedText =>
      match h.type with
      | HotkeyType.Combination =>
          if (h.modifiers.getD []).length = 0 then Except.error missingModifierMsg
          else Except.ok ()
      | HotkeyType.Consecutive => Except.ok ()

/-- `removeLanguage` of the language settings component: drops every
favourite whose code equals the removed one; when the removed code was
the current target and the remaining list is non-empty, the target
becomes the new first entry. -/
def removeLanguage (lc : LanguageConfig) (code : String) : LanguageConfig :=
  let favs := lc.favorite_languages.filter (fun l => l.code != code)
  if lc.current_target = code ∧ 0 < favs.length then
    { current_target := (favs.headD { code := "", name := "" }).code
      favorite_languages := favs }
  else
    { lc with favorite_languages := favs }

/-- `addLanguage` of the language settings component: appends the entry
unless one with the same code is already present. -/
def addLanguage (lc : LanguageConfig) (lang : Language) : LanguageConfig :=
  if lc.favorite_languages.any (fun l => l.code == lang.code) then lc
  else { lc with favorite_languages := lc.favorite_languages ++ [lang] }

/-- A component state recording the selected-text slot, with the default
configuration's hotkeys. -/
def recordingSelState : HotkeySettingsState :=
  { selectedRecording := true
    fullRecording := false
    conflictWarning := none
    selectedMode := defaultConfig.hotkey.selected_mode
    fullMode := defaultConfig.hotkey.full_mode
    consecutiveCount := 3 }

/-- A component state recording the full-text slot, with the default
configuration's hotkeys. -/
def recordingFullState : HotkeySettingsState :=
  { selectedRecording := false
    fullRecording := true
    conflictWarning := none
    selectedMode := defaultConfig.hotkey.selected_mode
    fullMode := defaultConfig.hotkey.full_mode
    consecutiveCount := 3 }

/-- An idle component state with the default configuration's hotkeys,
used for count edits. -/
def idleFullCountState : HotkeySettingsState :=
  { selectedRecording := false
    fullRecording := false
    conflictWarning := none
    selectedMode := defaultConfig.hotkey.selected_mode
    fullMode := defaultConfig.hotkey.full_mode
    consecutiveCount := 3 }

/-- A key-down of plain `k` with no modifier held. -/
def plainKeyEvent : KeyboardEvent :=
  { metaKey := false, ctrlKey := false, altKey := false, shiftKey := false, key := "k" }

/-- A key-down of Space with no modifier held. -/
def spaceKeyEvent : KeyboardEvent :=
  { metaKey := false, ctrlKey := false, altKey := false, shiftKey := false, key := " " }

/-- C1: for every store state and every candidate configuration,
`saveConfig` on backend success replaces the in-memory configuration
with the candidate and clears any prior error, and on backend failure
leaves the in-memory configuration unchanged, records the error, and
returns it to the caller. -/
theorem saveConfig_success_failure_spec (s : AppStateData) (cfg : AppConfig) (err : String) :
    (saveConfig s cfg (Except.ok ())).1.config = some cfg ∧
    (saveConfig s cfg (Except.ok ())).1.error = none ∧
    (saveConfig s cfg (Except.ok ())).2 = { success := true, error := none } ∧
    (saveConfig s cfg (Except.error err)).1.config = s.config ∧
    (saveConfig s cfg (Except.error err)).1.error = some err ∧
    (saveConfig s cfg (Except.error err)).2 = { success := false, error := some err } :=
  ⟨rfl, rfl, rfl, rfl, rfl, rfl⟩

/-- C2: for every hotkey `h`, `validate h` never fails on the full-text
slot, and fails on the selected-text slot with the missing-modifier
error if and only if `h` is a `Combination` whose modifier set is
empty. -/
theorem validate_slots_spec (h : Hotkey) :
    validate h Slot.fullText = Except.ok () ∧
    (validate h Slot.selectedText = Except.error missingModifierMsg ↔
      h.type = HotkeyType.Combination ∧ h.modifiers.getD [] = []) := by
  refine ⟨rfl, ?_⟩
  obtain ⟨t, m, k, c⟩ := h
  cases t with
  | Combination =>
      by_cases hm : m.getD [] = [] <;>
        simp [validate, List.length_eq_zero, hm]
  | Consecutive => simp [validate]

/-- C4: `loadConfig` on any backend failure substitutes the built-in
default configuration as the in-memory configuration, reports no error
(the recorded error stays empty), and clears the loading flag. -/
theorem loadConfig_failure_defaults_spec (s : AppStateData) (err : String) :
    (loadConfig s (Except.error err)).config = some defaultConfig ∧
    (loadConfig s (Except.error err)).error = none ∧
    (loadConfig s (Except.error err)).isLoading = false :=
  ⟨rfl, rfl, rfl⟩

/-- C3 counterexample: while the selected-text slot is recording, a
plain `k` key-down with no modifier held does *not* transition the
session back to idle — the recording flag stays set, refuting the
claimed `Recording → Idle` transition on the missing-modifier path. -/
theorem handleSelectedKeydown_missing_modifier_cex :
    ¬ ((handleSelectedKeydown recordingSelState plainKeyEvent).state.selectedRecording = false) := by
  decide

/-- C3 (amended): while the selected-text slot is recording, a
non-modifier key-down with no modifier held leaves the session in the
recording state (it does not return to idle), commits nothing, leaves
both configured hotkeys unchanged, surfaces the missing-modifier error
in the warning banner, and issues no conflict query. -/
theorem handleSelectedKeydown_missing_modifier_spec
    (st : HotkeySettingsState) (e : KeyboardEvent)
    (hrec : st.selectedRecording = true)
    (hm : e.metaKey = false) (hc : e.ctrlKey = false)
    (ha : e.altKey = false) (hs : e.shiftKey = false)
    (hkey : toLowerStr e.key ∉ pureModifierKeys) :
    (handleSelectedKeydown st e).state.selectedRecording = true ∧
    (handleSelectedKeydown st e).committed = none ∧
    (handleSelectedKeydown st e).state.selectedMode = st.selectedMode ∧
    (handleSelectedKeydown st e).state.fullMode = st.fullMode ∧
    (handleSelectedKeydown st e).state.conflictWarning = some missingModifierMsg ∧
    (handleSelectedKeydown st e).conflictChecked = false := by
  simp [handleSelectedKeydown, mkModifiers, hrec, hm, hc, ha, hs, hkey]

/-- C3 witness: the amended statement at the concrete recording state
and the plain `k` event. -/
theorem handleSelectedKeydown_missing_modifier_witness :
    (handleSelectedKeydown recordingSelState plainKeyEvent).state.selectedRecording = true ∧
    (handleSelectedKeydown recordingSelState plainKeyEvent).committed = none ∧
    (handleSelectedKeydown recordingSelState plainKeyEvent).state.selectedMode =
      recordingSelState.selectedMode ∧
    (handleSelectedKeydown recordingSelState plainKeyEvent).state.fullMode =
      recordingSelState.fullMode ∧
    (handleSelectedKeydown recordingSelState plainKeyEvent).state.conflictWarning =
      some missingModifierMsg ∧
    (handleSelectedKeydown recordingSelState plainKeyEvent).conflictChecked = false :=
  handleSelectedKeydown_missing_modifier_spec recordingSelState plainKeyEvent
    rfl rfl rfl rfl rfl (by decide)

/-- C7: a failure of the conflict query leaves the component state
exactly as it was (the committed hotkey is neither blocked nor
reverted, and no error is recorded), and a successful query can differ
from the pre-query state only in the conflict banner — so the failure
outcome equals the success outcome except that no banner is shown. -/
theorem checkConflict_failure_spec
    (st : HotkeySettingsState) (err : String) (cs : List String) :
    checkConflict st (Except.error err) = st ∧
    { checkConflict st (Except.ok cs) with conflictWarning := st.conflictWarning } = st := by
  refine ⟨rfl, ?_⟩
  by_cases hc : cs.length > 0 <;> simp [checkConflict, hc]

/-- C8: while the full-text slot is recording, a non-modifier key-down
with no modifier held commits a `Consecutive` hotkey whose key is the
pressed key and whose count is the slot's previously configured repeat
count (the `consecutiveCount` field still seeded from the configured
full-text hotkey), and stops recording. -/
theorem handleFullKeydown_consecutive_spec
    (st : HotkeySettingsState) (e : KeyboardEvent) (c : Int)
    (hrec : st.fullRecording = true)
    (hm : e.metaKey = false) (hc : e.ctrlKey = false)
    (ha : e.altKey = false) (hs : e.shiftKey = false)
    (hkey : toLowerStr e.key ∉ pureModifierKeys)
    (htype : st.fullMode.type = HotkeyType.Consecutive)
    (hcount : st.fullMode.count = some c)
    (hseed : st.consecutiveCount = initConsecutiveCount st.fullMode) :
    (handleFullKeydown st e).state.fullMode =
      { type := HotkeyType.Consecutive, modifiers := none,
        key := toLowerStr e.key, count := some c } ∧
    (handleFullKeydown st e).committed =
      some (st.selectedMode,
        { type := HotkeyType.Consecutive, modifiers := none,
          key := toLowerStr e.key, count := some c }) ∧
    (handleFullKeydown st e).state.fullRecording = false := by
  have hcc : st.consecutiveCount = c := by
    simp [hseed, initConsecutiveCount, htype, hcount]
  simp [handleFullKeydown, mkModifiers, hrec, hm, hc, ha, hs, hkey, hcc]

/-- C8 witness: pressing Space while recording the full-text slot with
the default configuration (configured repeat count 3) commits
`Consecutive` with key `" "` and count 3. -/
theorem handleFullKeydown_consecutive_witness :
    (handleFullKeydown recordingFullState spaceKeyEvent).state.fullMode =
      { type := HotkeyType.Consecutive, modifiers := none, key := " ", count := some 3 } ∧
    (handleFullKeydown recordingFullState spaceKeyEvent).committed =
      some (recordingFullState.selectedMode,
        { type := HotkeyType.Consecutive, modifiers := none, key := " ", count := some 3 }) ∧
    (handleFullKeydown recordingFullState spaceKeyEvent).state.fullRecording = false :=
  handleFullKeydown_consecutive_spec recordingFullState spaceKeyEvent 3
    rfl rfl rfl rfl rfl (by decide) rfl rfl (by decide)

/-- C5: evaluating the count-edit path at the out-of-range value 12.
With the full-text hotkey `Consecutive\x7bkey: " ", count: 3\x7d`, typing 12
into the count input and firing the change handler commits
`Consecutive\x7bkey: " ", count: 12\x7d`: the out-of-range value is stored
verbatim (the claimed clamping/rejection does not happen in the update
function), while key and type are preserved. -/
theorem updateConsecutiveCount_out_of_range :
    (onCountChange idleFullCountState 12).1.fullMode =
      { type := HotkeyType.Consecutive, modifiers := none, key := " ", count := some 12 } ∧
    (onCountChange idleFullCountState 12).2 =
      some (idleFullCountState.selectedMode,
        { type := HotkeyType.Consecutive, modifiers := none, key := " ", count := some 12 }) ∧
    ¬ ((2 : Int) ≤ 12 ∧ (12 : Int) ≤ 10) :=
  ⟨rfl, rfl, by decide⟩

/-- C6: removing the favourite language whose code equals the current
target, when the remaining list is non-empty, retargets to the code of
the new first entry; removing an entry whose code differs from the
current target leaves the target unchanged. -/
theorem removeLanguage_current_target_spec (lc : LanguageConfig) (code : String) :
    (∀ f rest, lc.current_target = code →
        lc.favorite_languages.filter (fun l => l.code != code) = f :: rest →
        (removeLanguage lc code).current_target = f.code) ∧
    (lc.current_target ≠ code →
        (removeLanguage lc code).current_target = lc.current_target) := by
  constructor
  · intro f rest h1 h2
    simp [removeLanguage, h1, h2]
  · intro hne
    simp [removeLanguage, hne]

/-- C6 witness: on the default favourite-language list with current
target `en-US`, removing `en-US` retargets to `zh-CN` (the new first
entry), and removing `ja-JP` leaves the target at `en-US`. -/
theorem removeLanguage_current_target_witness :
    (removeLanguage defaultConfig.language "en-US").current_target = "zh-CN" ∧
    (removeLanguage defaultConfig.language "ja-JP").current_target = "en-US" :=
  ⟨(removeLanguage_current_target_spec defaultConfig.language "en-US").1
      { code := "zh-CN", name := "简体中文" }
      [ { code := "ja-JP", name := "日本語" },
        { code := "ko-KR", name := "한국어" },
        { code := "fr-FR", name := "Français" },
        { code := "es-ES", name := "Español" } ]
      rfl rfl,
   (removeLanguage_current_target_spec defaultConfig.language "ja-JP").2 (by decide)⟩

/-- C9 counterexample: from a store state holding the default
configuration but with a recorded error, saving the same configuration
with a succeeding backend does not return the pre-call state — the
recorded error is cleared, so the claim quantified over every state
with a loaded configuration is false. -/
theorem saveConfig_idempotent_cex :
    (saveConfig
        { config := some defaultConfig, isLoading := false,
          error := some "boom", isEnabled := true }
        defaultConfig (Except.ok ())).1 ≠
      { config := some defaultConfig, isLoading := false,
        error := some "boom", isEnabled := true } := by
  intro h
  exact Option.noConfusion (congrArg AppStateData.error h)

/-- C9 (amended): for every store state whose in-memory configuration is
loaded, whose loading flag is clear and which has no recorded error,
saving that same configuration with a succeeding backend is idempotent:
the resulting state equals the pre-call state.  (A recorded error or a
set loading flag is reset by `saveConfig`, so those fields must already
be clear.) -/
theorem saveConfig_idempotent_spec (s : AppStateData) (cfg : AppConfig)
    (h1 : s.config = some cfg) (h2 : s.isLoading = false) (h3 : s.error = none) :
    (saveConfig s cfg (Except.ok ())).1 = s := by
  obtain ⟨c, l, er, en⟩ := s
  replace h1 : c = some cfg := h1
  replace h2 : l = false := h2
  replace h3 : er = none := h3
  subst h1; subst h2; subst h3
  rfl

/-- C9 witness: the amended idempotence at the concrete post-load state
holding the default configuration. -/
theorem saveConfig_idempotent_witness :
    (saveConfig
        { config := some defaultConfig, isLoading := false,
          error := none, isEnabled := true }
        defaultConfig (Except.ok ())).1 =
      { config := some defaultConfig, isLoading := false,
        error := none, isEnabled := true } :=
  saveConfig_idempotent_spec
    { config := some defaultConfig, isLoading := false,
      error := none, isEnabled := true }
    defaultConfig rfl rfl rfl

/-- C10: before any configuration has been loaded, `updateConfig` is a
complete no-op on the store state: the configuration stays `none` and
the loading flag, error and enabled flag are untouched. -/
theorem updateConfig_noop_before_load_spec (s : AppStateData) (p : ConfigPatch)
    (h : s.config = none) : updateConfig s p = s := by
  obtain ⟨c, l, er, en⟩ := s
  replace h : c = none := h
  subst h
  rfl

/-- C10 witness: the no-op at the initial store state with a patch that
carries a hotkey configuration and a history limit. -/
theorem updateConfig_noop_before_load_witness :
    updateConfig initialAppState
      { hotkey := some defaultConfig.hotkey, history_limit := some 100 } =
      initialAppState :=
  updateConfig_noop_before_load_spec initialAppState
    { hotkey := some defaultConfig.hotkey, history_limit := some 100 } rfl

end QuickTransType
